import Mathlib

/-!
Verification of the uni-builder configuration layer of the modern.js
excerpt (packages/builder/uni-builder).

The excerpt contains the real `createUniBuilder` entry point
(src/packages/builder/uni-builder/src/index.ts), the unit-test file of
`parseCommonConfig`, and an application config file.  The implementation
of `parseCommonConfig` itself is not part of the excerpt, so it is
modelled from the specification (and from the concrete expectations its
test file pins down: inline snapshots for browserslist normalization,
plugin-name presence for assets-retry).  `createUniBuilder` is embedded
from its source.

User-facing configuration objects are embedded as structures of `Option`
fields (an absent JavaScript key is `none`); JavaScript records used as
maps (the `xByEntries` objects, headers, template parameters) are
embedded as association lists of pairs.
-/

namespace UniBuilder

/-- Per-entry-overridable HTML options of the user-facing builder config.
Each field `x` has a global form and an `xByEntries` record keyed by entry
name (title, meta, favicon, inject, template, templateParameters). -/
structure HtmlUserConfig where
  title : Option String := none
  titleByEntries : List (String × String) := []
  meta : Option (List (String × String)) := none
  metaByEntries : List (String × List (String × String)) := []
  favicon : Option String := none
  faviconByEntries : List (String × String) := []
  inject : Option String := none
  injectByEntries : List (String × String) := []
  template : Option String := none
  templateByEntries : List (String × String) := []
  templateParameters : Option (List (String × String)) := none
  templateParametersByEntries : List (String × List (String × String)) := []
  deriving DecidableEq

/-- Options object of `output.assetsRetry`.  Only its presence or absence is
observable in the excerpt (the test checks plugin presence by name), so its
contents carry no fields here. -/
structure AssetsRetryOptions where
  deriving DecidableEq

/-- The `output` section of the user-facing builder config, restricted to the
fields the claims are about. -/
structure OutputUserConfig where
  assetsRetry : Option AssetsRetryOptions := none
  overrideBrowserslist : Option (List String) := none
  deriving DecidableEq

/-- The `dev` section of the user-facing builder config (https key/cert,
port, host), as exercised by the dev.xxx test. -/
structure DevUserConfig where
  httpsKey : Option String := none
  httpsCert : Option String := none
  port : Option Nat := none
  host : Option String := none
  deriving DecidableEq

/-- The `tools.devServer` section of the user-facing builder config. -/
structure DevServerUserConfig where
  compress : Option Bool := none
  hot : Option Bool := none
  headers : List (String × String) := []
  historyApiFallback : Option Bool := none
  deriving DecidableEq

/-- The `tools` section of the user-facing builder config. -/
structure ToolsUserConfig where
  devServer : Option DevServerUserConfig := none
  deriving DecidableEq

/-- The user-facing builder configuration (first argument of
parseCommonConfig).  The empty JavaScript object corresponds to the
default instance, every field absent. -/
structure BuilderConfig where
  html : HtmlUserConfig := {}
  output : OutputUserConfig := {}
  dev : Option DevUserConfig := none
  tools : ToolsUserConfig := {}
  deriving DecidableEq

/-- The second argument of parseCommonConfig.  The excerpt exercises its
`target` field (build target list); the default target set is the single
web target. -/
structure SharedOptions where
  target : List String := ["web"]
  deriving DecidableEq

/-- One entry of the normalized HTML configuration: each per-entry
overridable field, resolved for a given entry name.  `none` stands for an
absent key, i.e. the documented downstream default applies. -/
structure ResolvedHtml where
  title : Option String
  meta : Option (List (String × String))
  favicon : Option String
  inject : Option String
  template : Option String
  templateParameters : Option (List (String × String))

/-- Normalized dev-server configuration produced in development mode. -/
structure RsbuildDevConfig where
  httpsKey : Option String
  httpsCert : Option String
  port : Option Nat
  host : Option String
  compress : Option Bool
  hot : Option Bool
  headers : List (String × String)
  historyApiFallback : Option Bool
  deriving DecidableEq

/-- The normalized rsbuild-flavored configuration produced by
parseCommonConfig, restricted to the parts the claims are about: per-entry
HTML resolution, the per-target browserslist record, and the dev section. -/
structure RsbuildConfig where
  html : String → ResolvedHtml
  overrideBrowserslist : List (String × List String)
  dev : Option RsbuildDevConfig

/-- The pair returned by parseCommonConfig: the normalized config and the
ordered list of activated plugins, identified by name. -/
structure ParsedConfig where
  rsbuildConfig : RsbuildConfig
  rsbuildPlugins : List String

/-- Modelled from the spec: the documented default browserslist queries per
build target, pinned by the inline snapshots of the
output.overrideBrowserslist test: the node target defaults to node >= 14
and the web and web-worker targets default to the three web queries. -/
def defaultBrowserslist (target : String) : List String :=
  if target = "node" then ["node >= 14"]
  else ["> 0.01%", "not dead", "not op_mini all"]

/-- Modelled from the spec: per-entry override fields take precedence over
their global counterparts only for the matching entry; all other entries
retain the global value, and when no global value is given the field is
left absent so the documented default applies. -/
def resolveByEntries {α : Type} (global : Option α)
    (byEntries : List (String × α)) (entry : String) : Option α :=
  match byEntries.lookup entry with
  | some v => some v
  | none => global

/-- Modelled from the spec: resolution of every entry-overridable HTML field
for one entry name, applying `resolveByEntries` field by field. -/
def resolveHtml (h : HtmlUserConfig) (entry : String) : ResolvedHtml :=
  { title := resolveByEntries h.title h.titleByEntries entry
    meta := resolveByEntries h.meta h.metaByEntries entry
    favicon := resolveByEntries h.favicon h.faviconByEntries entry
    inject := resolveByEntries h.inject h.injectByEntries entry
    template := resolveByEntries h.template h.templateByEntries entry
    templateParameters :=
      resolveByEntries h.templateParameters h.templateParametersByEntries entry }

/-- Modelled from the spec: merge of the `dev` and `tools.devServer` user
options into the normalized dev-server configuration. -/
def mkDevConfig (d : Option DevUserConfig) (ds : Option DevServerUserConfig) :
    RsbuildDevConfig :=
  { httpsKey := d.bind DevUserConfig.httpsKey
    httpsCert := d.bind DevUserConfig.httpsCert
    port := d.bind DevUserConfig.port
    host := d.bind DevUserConfig.host
    compress := ds.bind DevServerUserConfig.compress
    hot := ds.bind DevServerUserConfig.hot
    headers := match ds with
      | some s => s.headers
      | none => []
    historyApiFallback := ds.bind DevServerUserConfig.historyApiFallback }

/-- Modelled from the spec: parseCommonConfig, the configuration-merging
function of uni-builder, whose implementation lies outside the excerpt
(only its test file is present).  It is a deterministic single-pass
mapping: per-entry HTML overrides take precedence for the matching entry;
the assets-retry feature flag appends exactly the plugin named
rsbuild:assets-retry; an absent browserslist override is filled with the
documented per-target defaults, while a user-supplied flat list is keyed
by target; the dev-server options are merged only under the development
NODE_ENV mode.  The ambient mutable global process.env.NODE_ENV is passed
as the explicit `nodeEnv` argument. -/
def parseCommonConfig (c : BuilderConfig) (opts : SharedOptions)
    (nodeEnv : String) : ParsedConfig :=
  { rsbuildConfig :=
      { html := resolveHtml c.html
        overrideBrowserslist :=
          opts.target.map (fun t =>
            (t, match c.output.overrideBrowserslist with
                | some l => l
                | none => defaultBrowserslist t))
        dev :=
          if nodeEnv = "development" then
            some (mkDevConfig c.dev c.tools.devServer)
          else
            none }
    rsbuildPlugins :=
      if (c.output.assetsRetry).isSome then ["rsbuild:assets-retry"] else [] }

/-- The resolved HTML record that the normalized configuration assigns to a
given entry name. -/
def htmlForEntry (c : BuilderConfig) (opts : SharedOptions)
    (nodeEnv entry : String) : ResolvedHtml :=
  (parseCommonConfig c opts nodeEnv).rsbuildConfig.html entry

/-- Options of createUniBuilder.  The excerpt does not contain the
declaration of CreateUniBuilderOptions, so only the field the source of
createUniBuilder reads is embedded; `none` models an absent bundlerType. -/
structure CreateUniBuilderOptions where
  bundlerType : Option String := none
  config : BuilderConfig := {}
  deriving DecidableEq

/-- Result of createUniBuilder: which underlying builder factory is called,
with the options passed through unchanged. -/
inductive BuilderResult where
  | webpackBuilder (options : CreateUniBuilderOptions)
  | rspackBuilder (options : CreateUniBuilderOptions)
  deriving DecidableEq

/-- Embedding of createUniBuilder
(src/packages/builder/uni-builder/src/index.ts): the rspack builder is
called exactly when options.bundlerType is the string rspack, and the
webpack builder is called otherwise. -/
def createUniBuilder (options : CreateUniBuilderOptions) : BuilderResult :=
  if options.bundlerType = some "rspack" then
    BuilderResult.rspackBuilder options
  else
    BuilderResult.webpackBuilder options

/-- createUniBuilder invoked under an ambient process.env.NODE_ENV value.
The source function never reads the environment, so the parameter is
unused; making it explicit lets dependence on the mode be stated. -/
def createUniBuilderWithEnv (_nodeEnv : String)
    (options : CreateUniBuilderOptions) : BuilderResult :=
  createUniBuilder options

/-- Concrete configuration from the html.titleByEntries test: a global
title together with a per-entry override for the entry named foo. -/
def c1Config : BuilderConfig :=
  { html := { title := some "Default", titleByEntries := [("foo", "Foo")] } }

/-- Concrete options from the output.overrideBrowserslist test: the three
documented build targets. -/
def c5Options : SharedOptions :=
  { target := ["web", "node", "web-worker"] }

/-- createUniBuilder options with a non-rspack bundlerType string. -/
def c8Options : CreateUniBuilderOptions :=
  { bundlerType := some "webpack" }

/-- createUniBuilder options with bundlerType absent. -/
def c8OptionsNone : CreateUniBuilderOptions :=
  { bundlerType := none }

/-- createUniBuilder options selecting rspack. -/
def c3OptionsRspack : CreateUniBuilderOptions :=
  { bundlerType := some "rspack" }

/-- Concrete configuration from the dev.xxx test: https key and cert, port,
host, and tools.devServer options. -/
def c9Config : BuilderConfig :=
  { dev := some { httpsKey := some "xxxx", httpsCert := some "xxx",
                  port := some 8081, host := some "xxx.xxx" }
    tools := { devServer := some { compress := some false, hot := some false,
                                   headers := [("X-Custom-Foo", "bar")],
                                   historyApiFallback := some true } } }

/-- An association-list lookup of a key that occurs in no pair fails. -/
theorem lookup_eq_none_of_not_mem {α : Type} (l : List (String × α))
    (k : String) (h : k ∉ l.map Prod.fst) : l.lookup k = none := by
  induction l with
  | nil => rfl
  | cons p t ih =>
    simp only [List.map_cons, List.mem_cons] at h
    push_neg at h
    have hk : (k == p.fst) = false := beq_eq_false_iff_ne.mpr h.1
    cases p with
    | mk a b =>
      simp only [List.lookup]
      simp only at hk
      rw [hk]
      exact ih h.2

/-- A successful lookup in the by-entries record wins over the global value. -/
theorem resolveByEntries_of_lookup {α : Type} (global : Option α)
    (byEntries : List (String × α)) (entry : String) (v : α)
    (h : byEntries.lookup entry = some v) :
    resolveByEntries global byEntries entry = some v := by
  simp [resolveByEntries, h]

/-- An entry matching no key of the by-entries record keeps the global
value (and hence the documented default when no global value is given). -/
theorem resolveByEntries_of_not_mem {α : Type} (global : Option α)
    (byEntries : List (String × α)) (entry : String)
    (h : entry ∉ byEntries.map Prod.fst) :
    resolveByEntries global byEntries entry = global := by
  simp [resolveByEntries, lookup_eq_none_of_not_mem byEntries entry h]

/-- Looking up a list element in the pairing of a list with a function
recovers the function value. -/
theorem lookup_map_pair (g : String → List String) :
    ∀ (ts : List String) (t : String), t ∈ ts →
      (ts.map (fun s => (s, g s))).lookup t = some (g t) := by
  intro ts
  induction ts with
  | nil => intro t ht; cases ht
  | cons s rest ih =>
    intro t ht
    simp only [List.map_cons, List.lookup]
    by_cases hts : t = s
    · subst hts
      simp
    · have hk : (t == s) = false := beq_eq_false_iff_ne.mpr hts
      simp only [hk]
      rcases List.mem_cons.mp ht with h | h
      · exact absurd h hts
      · exact ih t h

/-- C1: for every entry-overridable HTML field x (title, meta, favicon,
inject, template, templateParameters) and every configuration,
parseCommonConfig assigns the xByEntries value to exactly the entries
whose names match keys of xByEntries; every other entry receives the
global x value, which is the documented default (an absent key) when no
global x is given. -/
theorem html_byEntries_precedence (c : BuilderConfig) (opts : SharedOptions)
    (e entry : String) :
    ((∀ v, c.html.titleByEntries.lookup entry = some v →
        (htmlForEntry c opts e entry).title = some v) ∧
     (entry ∉ c.html.titleByEntries.map Prod.fst →
        (htmlForEntry c opts e entry).title = c.html.title)) ∧
    ((∀ v, c.html.metaByEntries.lookup entry = some v →
        (htmlForEntry c opts e entry).meta = some v) ∧
     (entry ∉ c.html.metaByEntries.map Prod.fst →
        (htmlForEntry c opts e entry).meta = c.html.meta)) ∧
    ((∀ v, c.html.faviconByEntries.lookup entry = some v →
        (htmlForEntry c opts e entry).favicon = some v) ∧
     (entry ∉ c.html.faviconByEntries.map Prod.fst →
        (htmlForEntry c opts e entry).favicon = c.html.favicon)) ∧
    ((∀ v, c.html.injectByEntries.lookup entry = some v →
        (htmlForEntry c opts e entry).inject = some v) ∧
     (entry ∉ c.html.injectByEntries.map Prod.fst →
        (htmlForEntry c opts e entry).inject = c.html.inject)) ∧
    ((∀ v, c.html.templateByEntries.lookup entry = some v →
        (htmlForEntry c opts e entry).template = some v) ∧
     (entry ∉ c.html.templateByEntries.map Prod.fst →
        (htmlForEntry c opts e entry).template = c.html.template)) ∧
    ((∀ v, c.html.templateParametersByEntries.lookup entry = some v →
        (htmlForEntry c opts e entry).templateParameters = some v) ∧
     (entry ∉ c.html.templateParametersByEntries.map Prod.fst →
        (htmlForEntry c opts e entry).templateParameters
          = c.html.templateParameters)) :=
  ⟨⟨fun _ hv => resolveByEntries_of_lookup _ _ _ _ hv,
    fun hm => resolveByEntries_of_not_mem _ _ _ hm⟩,
   ⟨fun _ hv => resolveByEntries_of_lookup _ _ _ _ hv,
    fun hm => resolveByEntries_of_not_mem _ _ _ hm⟩,
   ⟨fun _ hv => resolveByEntries_of_lookup _ _ _ _ hv,
    fun hm => resolveByEntries_of_not_mem _ _ _ hm⟩,
   ⟨fun _ hv => resolveByEntries_of_lookup _ _ _ _ hv,
    fun hm => resolveByEntries_of_not_mem _ _ _ hm⟩,
   ⟨fun _ hv => resolveByEntries_of_lookup _ _ _ _ hv,
    fun hm => resolveByEntries_of_not_mem _ _ _ hm⟩,
   ⟨fun _ hv => resolveByEntries_of_lookup _ _ _ _ hv,
    fun hm => resolveByEntries_of_not_mem _ _ _ hm⟩⟩

/-- C1 witness: on the titleByEntries test configuration, the entry foo
receives the per-entry title Foo and an entry matching no key keeps the
global title Default. -/
theorem html_byEntries_precedence_witness :
    (htmlForEntry c1Config {} "production" "foo").title = some "Foo" ∧
    (htmlForEntry c1Config {} "production" "other").title = some "Default" := by
  constructor
  · exact (html_byEntries_precedence c1Config {} "production" "foo").1.1
      "Foo" (by decide)
  · exact ((html_byEntries_precedence c1Config {} "production" "other").1.2
      (by decide)).trans rfl

/-- C2: the plugin list returned by parseCommonConfig contains exactly one
plugin named rsbuild:assets-retry when output.assetsRetry is set, and zero
plugins of that name when it is absent. -/
theorem assetsRetry_plugin_count (c : BuilderConfig) (opts : SharedOptions)
    (e : String) :
    (parseCommonConfig c opts e).rsbuildPlugins.count "rsbuild:assets-retry"
      = if (c.output.assetsRetry).isSome then 1 else 0 := by
  by_cases h : (c.output.assetsRetry).isSome <;>
    simp [parseCommonConfig, h]

/-- C3 counterexample: at a fixed options value the webpack/rspack choice is
unchanged between the development and production NODE_ENV modes, while at a
fixed mode the choice flips with the bundlerType option, so the entry point
does not choose the flavor by branching on an NODE_ENV-like mode value. -/
theorem createUniBuilder_not_env_branch :
    createUniBuilderWithEnv "development" c8OptionsNone
      = createUniBuilderWithEnv "production" c8OptionsNone ∧
    createUniBuilderWithEnv "development" c8OptionsNone
      ≠ createUniBuilderWithEnv "development" c3OptionsRspack := by
  exact ⟨rfl, by decide⟩

/-- C3 amended: createUniBuilder chooses between the webpack and the rspack
builder by branching on the options.bundlerType field, independently of the
NODE_ENV mode: the choice is the same under any two modes, and the rspack
builder is chosen exactly when bundlerType is the string rspack. -/
theorem createUniBuilder_bundlerType_branch (e e' : String)
    (o : CreateUniBuilderOptions) :
    createUniBuilderWithEnv e o = createUniBuilderWithEnv e' o ∧
    (createUniBuilderWithEnv e o = BuilderResult.rspackBuilder o
      ↔ o.bundlerType = some "rspack") := by
  refine ⟨rfl, ?_⟩
  unfold createUniBuilderWithEnv createUniBuilder
  split <;> rename_i h <;> simp [h]

/-- C3 amended witness: at the concrete rspack options the rspack builder is
chosen under the development mode. -/
theorem createUniBuilder_bundlerType_branch_witness :
    createUniBuilderWithEnv "development" c3OptionsRspack
      = BuilderResult.rspackBuilder c3OptionsRspack :=
  (createUniBuilder_bundlerType_branch "development" "production"
    c3OptionsRspack).2.mpr (by decide)

/-- C4: parseCommonConfig is deterministic: two calls on identical
configuration arguments and an identical NODE_ENV value return identical
results, the same rsbuildConfig and the same plugin list in the same
order. -/
theorem parseCommonConfig_deterministic (c c' : BuilderConfig)
    (o o' : SharedOptions) (e e' : String)
    (hc : c = c') (ho : o = o') (he : e = e') :
    parseCommonConfig c o e = parseCommonConfig c' o' e' := by
  subst hc; subst ho; subst he; rfl

/-- C4 witness: two calls on the dev.xxx test configuration under the
development mode agree. -/
theorem parseCommonConfig_deterministic_witness :
    parseCommonConfig c9Config {} "development"
      = parseCommonConfig c9Config {} "development" :=
  parseCommonConfig_deterministic c9Config c9Config {} {}
    "development" "development" rfl rfl rfl

/-- C5: when output.overrideBrowserslist is absent, the normalized
browserslist record maps the node target to node >= 14 and the web and
web-worker targets to the three documented web queries, for every target of
the requested target list. -/
theorem overrideBrowserslist_defaults (c : BuilderConfig) (o : SharedOptions)
    (e : String) (h : c.output.overrideBrowserslist = none) :
    ("node" ∈ o.target →
      ((parseCommonConfig c o e).rsbuildConfig.overrideBrowserslist).lookup
        "node" = some ["node >= 14"]) ∧
    ("web" ∈ o.target →
      ((parseCommonConfig c o e).rsbuildConfig.overrideBrowserslist).lookup
        "web" = some ["> 0.01%", "not dead", "not op_mini all"]) ∧
    ("web-worker" ∈ o.target →
      ((parseCommonConfig c o e).rsbuildConfig.overrideBrowserslist).lookup
        "web-worker" = some ["> 0.01%", "not dead", "not op_mini all"]) := by
  have hmap : (parseCommonConfig c o e).rsbuildConfig.overrideBrowserslist
      = o.target.map (fun t => (t, defaultBrowserslist t)) := by
    simp [parseCommonConfig, h]
  refine ⟨fun hm => ?_, fun hm => ?_, fun hm => ?_⟩ <;>
    rw [hmap, lookup_map_pair defaultBrowserslist o.target _ hm] <;> decide

/-- C5 witness: on the empty configuration with the three-target options of
the test, each target receives its documented default queries. -/
theorem overrideBrowserslist_defaults_witness :
    ((parseCommonConfig {} c5Options "production").rsbuildConfig.overrideBrowserslist).lookup
      "node" = some ["node >= 14"] ∧
    ((parseCommonConfig {} c5Options "production").rsbuildConfig.overrideBrowserslist).lookup
      "web" = some ["> 0.01%", "not dead", "not op_mini all"] ∧
    ((parseCommonConfig {} c5Options "production").rsbuildConfig.overrideBrowserslist).lookup
      "web-worker" = some ["> 0.01%", "not dead", "not op_mini all"] := by
  have h := overrideBrowserslist_defaults {} c5Options "production" rfl
  exact ⟨h.1 (by decide), h.2.1 (by decide), h.2.2 (by decide)⟩

/-- C6: parseCommonConfig never fails: on every input, including the empty
configuration, it returns a normalized configuration (no error value in
its result type), and the browserslist section is filled with one record
entry per requested target. -/
theorem parseCommonConfig_no_failure (c : BuilderConfig) (o : SharedOptions)
    (e : String) :
    ∃ r : ParsedConfig, parseCommonConfig c o e = r ∧
      r.rsbuildConfig.overrideBrowserslist.map Prod.fst = o.target :=
  ⟨parseCommonConfig c o e, rfl, by
    simp only [parseCommonConfig, List.map_map]
    exact List.map_id o.target⟩

/-- C8: createUniBuilder calls the webpack builder on the unchanged options
for every bundlerType other than the exact string rspack, absent values
included, and the rspack builder is called exactly when bundlerType is the
string rspack. -/
theorem createUniBuilder_branches_on_bundlerType
    (o : CreateUniBuilderOptions) :
    (o.bundlerType ≠ some "rspack" →
      createUniBuilder o = BuilderResult.webpackBuilder o) ∧
    (createUniBuilder o = BuilderResult.rspackBuilder o
      ↔ o.bundlerType = some "rspack") := by
  constructor
  · intro h
    unfold createUniBuilder
    simp [h]
  · unfold createUniBuilder
    split <;> rename_i h <;> simp [h]

/-- C8 witness: both a misspelled bundlerType string and an absent
bundlerType fall through to the webpack builder. -/
theorem createUniBuilder_branches_witness :
    createUniBuilder c8Options = BuilderResult.webpackBuilder c8Options ∧
    createUniBuilder c8OptionsNone
      = BuilderResult.webpackBuilder c8OptionsNone :=
  ⟨(createUniBuilder_branches_on_bundlerType c8Options).1 (by decide),
   (createUniBuilder_branches_on_bundlerType c8OptionsNone).1 (by decide)⟩

/-- C9: the result of parseCommonConfig depends on the mutable global
NODE_ENV: on the fixed dev.xxx test configuration, the call under the
development mode and the call under the production mode return different
normalized configurations. -/
theorem parseCommonConfig_depends_on_nodeEnv :
    (parseCommonConfig c9Config {} "development").rsbuildConfig
      ≠ (parseCommonConfig c9Config {} "production").rsbuildConfig := by
  intro h
  have hd := congrArg RsbuildConfig.dev h
  simp [parseCommonConfig] at hd

/-- C10: parseCommonConfig changes the shape of
output.overrideBrowserslist: the user supplies a flat list of query
strings, and with the default target set the normalized output is a record
keyed by target name carrying the user list under the web key. -/
theorem overrideBrowserslist_shape (l : List String) (e : String) :
    (parseCommonConfig { output := { overrideBrowserslist := some l } } {}
        e).rsbuildConfig.overrideBrowserslist = [("web", l)] := by
  rfl

end UniBuilder
